import Mathlib

/-!
Shallow embedding of the signaling server in `src/index.js` (second
revision of the file, the one the routes and handlers of the spec were
written against).

The server keeps one shared mutable map
`clients : userId -> { socketId?, pushToken? }`, plus each socket's
remembered `socket.data.userId`.  Socket event handlers (`register`,
`register_push`, `call`, `accept_call`, `reject_call`, `end_call`,
`disconnect`) mutate this map and emit events; the HTTP endpoints
`GET /rtcToken` and `POST /sendPush` read it and call external
collaborators (the token builder and the push delivery service), which
are modelled as parameters describing their outcome.

JavaScript strings are `String`; a possibly-`undefined` value is
`Option String`; JS truthiness of a string is "not the empty string".
-/

/-- JS truthiness of a string: `""` is falsy, every other string truthy. -/
def truthyStr (s : String) : Bool := !(s == "")

/-- JS truthiness of a possibly-undefined string (`undefined` is falsy). -/
def truthyOpt : Option String → Bool
  | some s => truthyStr s
  | none => false

/-- A JS object used as a string-keyed map, embedded as an association
list.  `lookupKV` is property read, `setKV` is property write. -/
def lookupKV {α : Type} (l : List (String × α)) (k : String) : Option α :=
  (l.find? (fun p => p.1 == k)).map Prod.snd

/-- Property write on a string-keyed JS object: the new binding shadows
(and here replaces) any previous binding for the same key. -/
def setKV {α : Type} (l : List (String × α)) (k : String) (v : α) : List (String × α) :=
  (k, v) :: l.filter (fun p => p.1 != k)

/-- JS property access coerces an `undefined` key to the string
`"undefined"` (`clients[to]` with `to === undefined`). -/
def keyOf : Option String → String
  | some s => s
  | none => "undefined"

/-- One value of the `clients` map: `{ socketId?, pushToken? }`
(`src/index.js` line 204: `userId -> { socketId?, pushToken? }`). -/
structure ClientRecord where
  socketId : Option String := none
  pushToken : Option String := none
deriving Repr, DecidableEq

/-- The fresh record `{}` created on first registration for a user. -/
def ClientRecord.empty : ClientRecord := {}

/-- The server's mutable state: the `clients` map and, per socket id,
the `socket.data.userId` remembered at registration time. -/
structure ServerState where
  clients : List (String × ClientRecord) := []
  sockUser : List (String × String) := []
deriving Repr, DecidableEq

/-- `socket.on('register')` (`src/index.js` 209-219): if `userId` is
falsy, return; else upsert the record, set its `socketId` to this
socket's id, and remember `socket.data.userId = userId`. -/
def register (st : ServerState) (sid : String) (userId : Option String) : ServerState :=
  if truthyOpt userId then
    match userId with
    | some u =>
      { clients := setKV st.clients u
          { (lookupKV st.clients u).getD ClientRecord.empty with socketId := some sid },
        sockUser := setKV st.sockUser sid u }
    | none => st
  else st

/-- `socket.on('register_push')` (`src/index.js` 221-230): if `userId`
or `pushToken` is falsy, return; else upsert the record and set its
`pushToken`. -/
def registerPush (st : ServerState) (userId pushToken : Option String) : ServerState :=
  if truthyOpt userId && truthyOpt pushToken then
    match userId with
    | some u =>
      let r := { (lookupKV st.clients u).getD ClientRecord.empty with pushToken := pushToken }
      { st with clients := setKV st.clients u r }
    | none => st
  else st

/-- `socket.on('disconnect')` (`src/index.js` 278-285): read the
socket's remembered `userId`; if truthy and the record exists, delete
its `socketId` field.  Note: the stored `socketId` is NOT compared with
the disconnecting socket's own id. -/
def disconnect (st : ServerState) (sid : String) : ServerState :=
  match lookupKV st.sockUser sid with
  | some u =>
    if truthyStr u then
      match lookupKV st.clients u with
      | some r => { st with clients := setKV st.clients u { r with socketId := none } }
      | none => st
    else st
  | none => st

/-- A call-lifecycle payload `{ to, from, channel, ... }`; `extra`
stands for the opaque passthrough fields (e.g. `callerUid`), carried so
that "forwarded unmodified" is observable. -/
structure Payload where
  toUser : Option String
  fromId : Option String
  channel : Option String
  extra : List (String × String) := []
deriving Repr, DecidableEq

/-- What a handler emits: either the sender's full payload, or the
`{ to }` object built for `callee_unavailable`. -/
inductive OutPayload where
  | full (p : Payload)
  | toOnly (toUser : Option String)
deriving Repr, DecidableEq

/-- One `io.to(target).emit(event, payload)` call. -/
structure Emit where
  target : String
  event : String
  payload : OutPayload
deriving Repr, DecidableEq

/-- `clients[to]?.socketId`: the live-connection handle the registry
resolves for `to`. -/
def resolveLive (st : ServerState) (toId : Option String) : Option String :=
  (lookupKV st.clients (keyOf toId)).bind ClientRecord.socketId

/-- `clients[to]?.pushToken`: the notification address on file for `to`. -/
def resolvePushToken (st : ServerState) (toId : Option String) : Option String :=
  (lookupKV st.clients (keyOf toId)).bind ClientRecord.pushToken

/-- `socket.on('call')` (`src/index.js` 232-243): if `clients[to]?.socketId`
is truthy, forward the payload unmodified as `incoming_call` to it;
otherwise emit `callee_unavailable { to }` back to the sender's socket. -/
def handleCall (st : ServerState) (sid : String) (p : Payload) : List Emit :=
  match resolveLive st p.toUser with
  | some ts =>
    if truthyStr ts then [⟨ts, "incoming_call", .full p⟩]
    else [⟨sid, "callee_unavailable", .toOnly p.toUser⟩]
  | none => [⟨sid, "callee_unavailable", .toOnly p.toUser⟩]

/-- Shared shape of `accept_call` / `reject_call` / `end_call`
(`src/index.js` 245-276): if `clients[payload.to]?.socketId` is truthy,
forward the payload unmodified under `evName`; else emit nothing. -/
def forwardOnly (st : ServerState) (evName : String) (p : Payload) : List Emit :=
  match resolveLive st p.toUser with
  | some ts => if truthyStr ts then [⟨ts, evName, .full p⟩] else []
  | none => []

/-- `socket.on('accept_call')` (`src/index.js` 245-254). -/
def handleAccept (st : ServerState) (p : Payload) : List Emit :=
  forwardOnly st "call_accepted" p

/-- `socket.on('reject_call')` (`src/index.js` 256-265). -/
def handleReject (st : ServerState) (p : Payload) : List Emit :=
  forwardOnly st "call_rejected" p

/-- `socket.on('end_call')` (`src/index.js` 267-276). -/
def handleEnd (st : ServerState) (p : Payload) : List Emit :=
  forwardOnly st "end_call" p

/-! ### JS numeric conversion and the HTTP endpoints -/

/-- A JS number as far as `/rtcToken` observes it: `NaN`, an infinity,
or a finite value (kept exact as a rational; double rounding is not
modelled, which is irrelevant on the short identifiers at issue). -/
inductive JSNum where
  | nan
  | inf (neg : Bool)
  | finite (q : ℚ)
deriving Repr, DecidableEq

/-- `Number.isFinite`. -/
def JSNum.isFinite : JSNum → Bool
  | .finite _ => true
  | _ => false

/-- Value of a digit string read in base 10. -/
def natOfDigits (ds : List Char) : ℕ :=
  ds.foldl (fun a c => a * 10 + (c.toNat - 48)) 0

/-- Exponent suffix of a JS decimal literal: empty (exponent 0), or
`(e|E)[+|-]digits` with nothing after it; anything else is `NaN`.
Returns the exponent's sign and magnitude. -/
def parseExpDigits (cs : List Char) : Option (Bool × ℕ) :=
  match cs with
  | [] => some (false, 0)
  | c :: rest =>
    if c = 'e' ∨ c = 'E' then
      let signSplit : Bool × List Char :=
        match rest with
        | '+' :: r => (false, r)
        | '-' :: r => (true, r)
        | r => (false, r)
      let eds := signSplit.2.takeWhile Char.isDigit
      let rest3 := signSplit.2.dropWhile Char.isDigit
      if eds.isEmpty || !rest3.isEmpty then none
      else some (signSplit.1, natOfDigits eds)
    else none

/-- Unsigned decimal literal `digits[.digits][exp]` (at least one digit
on one side of the point), as JS `Number` reads it.  The value is
assembled as an integer numerator over a power-of-ten denominator
(`mkRat` normalises), which is the exact value of the literal. -/
def parseUnsignedDec (cs : List Char) : Option ℚ :=
  let intPart := cs.takeWhile Char.isDigit
  let rest1 := cs.dropWhile Char.isDigit
  let mantissa : Option (ℕ × ℕ × List Char) :=
    match rest1 with
    | '.' :: rest2 =>
      let fracPart := rest2.takeWhile Char.isDigit
      let rest3 := rest2.dropWhile Char.isDigit
      if intPart.isEmpty && fracPart.isEmpty then none
      else some (natOfDigits intPart * 10 ^ fracPart.length + natOfDigits fracPart,
        fracPart.length, rest3)
    | _ =>
      if intPart.isEmpty then none
      else some (natOfDigits intPart, 0, rest1)
  match mantissa with
  | none => none
  | some (m, k, rest) =>
    match parseExpDigits rest with
    | none => none
    | some (eneg, e) =>
      if eneg then some (mkRat (m : Int) (10 ^ (k + e)))
      else some (mkRat ((m * 10 ^ e : ℕ) : Int) (10 ^ k))

/-- Whitespace trimming on both ends of a character list (JS `Number`
and `parseInt` trim their input before reading it). -/
def trimChars (cs : List Char) : List Char :=
  ((cs.dropWhile Char.isWhitespace).reverse.dropWhile Char.isWhitespace).reverse

/-- `Number(s)` on a string, restricted to the decimal fragment: trims
whitespace, maps `""` to `0`, recognises signed `Infinity` and signed
decimal literals, and yields `NaN` otherwise.  (Hex/octal/binary
literals are not modelled; no input at issue uses them.) -/
def jsNumber (s : String) : JSNum :=
  let t := trimChars s.toList
  if t = [] then .finite 0
  else
    let signSplit : Bool × List Char :=
      match t with
      | '-' :: r => (true, r)
      | '+' :: r => (false, r)
      | r => (false, r)
    if signSplit.2 = "Infinity".toList then .inf signSplit.1
    else
      match parseUnsignedDec signSplit.2 with
      | some q => .finite (if signSplit.1 then -q else q)
      | none => .nan

/-- `parseInt(s, 10)`: trim, optional sign, longest digit prefix;
`none` stands for `NaN` (no digits at all).  Trailing garbage after
the digits is ignored, unlike `Number`. -/
def parseIntDec (s : String) : Option Int :=
  let t := trimChars s.toList
  let signSplit : Bool × List Char :=
    match t with
    | '-' :: r => (true, r)
    | '+' :: r => (false, r)
    | r => (false, r)
  let ds := signSplit.2.takeWhile Char.isDigit
  if ds.isEmpty then none
  else if signSplit.1 then some (-(natOfDigits ds : Int))
  else some (natOfDigits ds : Int)

/-- `process.env.X || 'dflt'`: the default replaces an unset or falsy
(empty) environment value. -/
def envOr (v : Option String) (dflt : String) : String :=
  match v with
  | some s => if truthyStr s then s else dflt
  | none => dflt

/-- An HTTP response body as the two endpoints produce them. -/
inductive RespBody where
  | okTrue
  | errorMsg (msg : String)
  | tokenResp (rtcToken : String) (uid : ℚ) (channelName : String)
deriving Repr, DecidableEq

/-- An HTTP response: status code (200 for bare `res.json`) and body. -/
structure HttpResp where
  status : ℕ
  body : RespBody
deriving Repr, DecidableEq

/-- The argument bundle handed to the external
`RtcTokenBuilder.buildTokenWithUid` signing primitive (the app id,
certificate and fixed PUBLISHER role are constants and omitted).
`expireTs` is `none` when the arithmetic produced `NaN`. -/
structure SignCall where
  channelName : String
  uid : ℚ
  expireTs : Option Int
deriving Repr, DecidableEq

/-- `GET /rtcToken` (`src/index.js` 163-197).  `channelName`/`uid` are
the raw query parameters; `envTTL` is `process.env.TOKEN_EXPIRE_S`;
`now` is `Math.floor(Date.now()/1000)`; `sign` is the external signing
primitive, `none` meaning it threw.  Returns the response together
with the sign call made (if any). -/
def rtcToken (channelName uid : Option String) (envTTL : Option String) (now : Int)
    (sign : SignCall → Option String) : HttpResp × Option SignCall :=
  if !(truthyOpt channelName) || !(truthyOpt uid) then
    (⟨400, .errorMsg "channelName and uid required"⟩, none)
  else
    match jsNumber (uid.getD "") with
    | .finite q =>
      let expireSeconds := parseIntDec (envOr envTTL "3600")
      let call : SignCall := ⟨channelName.getD "", q, expireSeconds.map (fun e => now + e)⟩
      match sign call with
      | some tok => (⟨200, .tokenResp tok q (channelName.getD "")⟩, some call)
      | none => (⟨500, .errorMsg "token_generation_failed"⟩, some call)
    | _ => (⟨400, .errorMsg "uid must be numeric"⟩, none)

/-- Outcome of the `fetch` to the push delivery collaborator:
`response ok` means the request resolved (with `pushResponse.ok = ok`,
and when not ok, the error body was read without throwing);
`transportError` means a throw anywhere inside the `try` block. -/
inductive PushOutcome where
  | response (ok : Bool)
  | transportError
deriving Repr, DecidableEq

/-- The alert actually submitted to the delivery collaborator. -/
structure PushSend where
  token : String
  fromId : Option String
  channel : Option String
deriving Repr, DecidableEq

/-- `POST /sendPush` (`src/index.js` 289-323).  Body `{to, from, channel}`;
`outcome` is the collaborator's behaviour.  Returns the response and the
alert submitted (if any).  Note the non-ok response branch only logs and
still returns `res.json({ ok: true })`. -/
def sendPush (st : ServerState) (toId fromId channel : Option String)
    (outcome : PushOutcome) : HttpResp × Option PushSend :=
  match resolvePushToken st toId with
  | some tok =>
    if truthyStr tok then
      match outcome with
      | .response _ => (⟨200, .okTrue⟩, some ⟨tok, fromId, channel⟩)
      | .transportError => (⟨500, .errorMsg "push_failed"⟩, some ⟨tok, fromId, channel⟩)
    else (⟨400, .errorMsg "No push token for recipient"⟩, none)
  | none => (⟨400, .errorMsg "No push token for recipient"⟩, none)

/-! ### Map lemmas -/

/-- Filtering out bindings for key `k` does not change lookup at a
different key. -/
theorem find_filter_ne {α : Type} (l : List (String × α)) (k k' : String) (h : k' ≠ k) :
    (l.filter (fun p => p.1 != k)).find? (fun p => p.1 == k') =
      l.find? (fun p => p.1 == k') := by
  induction l with
  | nil => rfl
  | cons a l ih =>
    have hkk : (k == k') = false := by
      rw [beq_eq_false_iff_ne]
      exact fun e => h e.symm
    by_cases hk : a.1 = k
    · simp [List.filter_cons, hk, List.find?_cons, hkk, ih]
    · by_cases hk2 : a.1 = k'
      · simp [List.filter_cons, hk, List.find?_cons, hk2, h, ih]
      · simp [List.filter_cons, hk, List.find?_cons, hk2, h, ih]

/-- Lookup after writing the same key. -/
theorem lookupKV_setKV_self {α : Type} (l : List (String × α)) (k : String) (v : α) :
    lookupKV (setKV l k v) k = some v := by
  simp [lookupKV, setKV, List.find?_cons]

/-- Lookup after writing a different key. -/
theorem lookupKV_setKV_ne {α : Type} (l : List (String × α)) (k k' : String) (v : α)
    (h : k' ≠ k) : lookupKV (setKV l k v) k' = lookupKV l k' := by
  have h1 : (k == k') = false := by
    rw [beq_eq_false_iff_ne]
    exact fun e => h e.symm
  simp only [lookupKV, setKV, List.find?_cons, h1]
  rw [find_filter_ne _ _ _ h]

/-! ### C1: disconnect vs. newer registration for the same user -/

/-- C1 counterexample: socket S1 registers as user A, then socket S2
registers as A (superseding S1); S1's disconnect nevertheless clears
A's entry — A does not still resolve to S2 as the claim states, it
resolves to nothing. -/
theorem staleDisconnect_clobbers_newer_registration_cex :
    resolveLive (disconnect (register (register {} "S1" (some "A")) "S2" (some "A")) "S1")
        (some "A") ≠ some "S2" ∧
    resolveLive (disconnect (register (register {} "S1" (some "A")) "S2" (some "A")) "S1")
        (some "A") = none := by
  decide

/-- C1 (amended): the disconnect cleanup clears the remembered user's
live-connection field unconditionally — whenever the disconnecting
socket remembers a truthy `userId` whose record exists — without
comparing the stored handle with the disconnecting socket's own id, so
a stale disconnect does clobber a newer registration. -/
theorem disconnect_clears_unconditionally (st : ServerState) (sid u : String)
    (hmap : lookupKV st.sockUser sid = some u) (hu : truthyStr u = true)
    (r : ClientRecord) (hr : lookupKV st.clients u = some r) :
    resolveLive (disconnect st sid) (some u) = none := by
  simp [disconnect, hmap, hu, hr, resolveLive, keyOf, lookupKV_setKV_self]

/-- Witness for C1 (amended) at the S1/S2 scenario. -/
theorem disconnect_clears_unconditionally_witness :
    resolveLive (disconnect (register (register {} "S1" (some "A")) "S2" (some "A")) "S1")
        (some "A") = none :=
  disconnect_clears_unconditionally _ "S1" "A" (by decide) (by decide)
    ⟨some "S2", none⟩ (by decide)

/-! ### C2: sendPush and collaborator failure -/

/-- C2 counterexample: with a push token on file for A, a non-success
(`ok = false`) collaborator response still yields `200 {ok:true}`, not
the `500 {error:"push_failed"}` the claim requires. -/
theorem sendPush_nonOk_response_returns_ok_cex :
    (sendPush (registerPush {} (some "A") (some "tok")) (some "A") (some "B") (some "room")
        (.response false)).1 = ⟨200, .okTrue⟩ ∧
    (⟨200, RespBody.okTrue⟩ : HttpResp) ≠ ⟨500, .errorMsg "push_failed"⟩ := by
  decide

/-- C2 (amended): when the target has a truthy push token on file, any
resolved collaborator response — success or non-success — yields
`200 {ok:true}` (a non-success status is only logged); only a throw
inside the delivery attempt (transport error) yields
`500 {error:"push_failed"}`. -/
theorem sendPush_status_amended (st : ServerState) (toId fromId channel : Option String)
    (b : Bool) (h : truthyOpt (resolvePushToken st toId) = true) :
    (sendPush st toId fromId channel (.response b)).1 = ⟨200, .okTrue⟩ ∧
    (sendPush st toId fromId channel .transportError).1 = ⟨500, .errorMsg "push_failed"⟩ := by
  cases htok : resolvePushToken st toId with
  | none => rw [htok] at h; simp [truthyOpt] at h
  | some tok =>
    rw [htok] at h
    simp only [truthyOpt] at h
    simp [sendPush, htok, h]

/-- Witness for C2 (amended) at a concrete registry. -/
theorem sendPush_status_amended_witness :
    (sendPush (registerPush {} (some "A") (some "tok")) (some "A") none none
        .transportError).1 = ⟨500, .errorMsg "push_failed"⟩ :=
  (sendPush_status_amended (registerPush {} (some "A") (some "tok")) (some "A") none none
    true (by decide)).2

/-! ### C3: /rtcToken uid validation -/

/-- C3 counterexample: `uid=1.5` is fractional, yet the endpoint
returns 200 and passes the non-integer value 3/2 through to the
signing primitive unmodified, instead of the claimed 400. -/
theorem rtcToken_fractional_uid_accepted_cex :
    (rtcToken (some "room1") (some "1.5") none 0 (fun _ => some "T")).1.status = 200 ∧
    ((rtcToken (some "room1") (some "1.5") none 0 (fun _ => some "T")).2).map SignCall.uid =
      some (mkRat 3 2) := by
  decide

/-- C3 (amended): with both parameters truthy, the endpoint returns
`400 {error:"uid must be numeric"}` exactly when `Number(uid)` is not
finite (`NaN` or an infinity); a finite value — fractional included —
is accepted and handed to the signing primitive unmodified (neither
truncated nor rejected). -/
theorem rtcToken_uid_validation_amended (c u : String) (envTTL : Option String) (now : Int)
    (sign : SignCall → Option String) (hc : truthyStr c = true) (hu : truthyStr u = true) :
    ((jsNumber u).isFinite = false →
      (rtcToken (some c) (some u) envTTL now sign).1 = ⟨400, .errorMsg "uid must be numeric"⟩) ∧
    (∀ q : ℚ, jsNumber u = .finite q →
      ((rtcToken (some c) (some u) envTTL now sign).2).map SignCall.uid = some q) := by
  constructor
  · intro hfin
    cases hj : jsNumber u with
    | nan => simp [rtcToken, truthyOpt, hc, hu, hj]
    | inf n => simp [rtcToken, truthyOpt, hc, hu, hj]
    | finite q => rw [hj] at hfin; simp [JSNum.isFinite] at hfin
  · intro q hq
    cases hs : sign ⟨c, q, (parseIntDec (envOr envTTL "3600")).map (fun e => now + e)⟩ with
    | some tok => simp [rtcToken, truthyOpt, hc, hu, hq, hs]
    | none => simp [rtcToken, truthyOpt, hc, hu, hq, hs]

/-- Witness for C3 (amended) at `uid=abc` (non-numeric). -/
theorem rtcToken_uid_validation_amended_witness :
    (rtcToken (some "room1") (some "abc") none 0 (fun _ => some "T")).1 =
      ⟨400, .errorMsg "uid must be numeric"⟩ :=
  (rtcToken_uid_validation_amended "room1" "abc" none 0 (fun _ => some "T")
    (by decide) (by decide)).1 (by decide)

/-! ### C4: call routing -/

/-- C4: a `call` whose `to` resolves to a live connection emits exactly
one `incoming_call` carrying the sender's payload unmodified, to that
connection and nothing else; a `call` whose `to` does not resolve emits
exactly one `callee_unavailable{to}` to the originating socket and no
forward. -/
theorem call_routing_correct (st : ServerState) (sid : String) (p : Payload) :
    (∀ ts, resolveLive st p.toUser = some ts → truthyStr ts = true →
      handleCall st sid p = [⟨ts, "incoming_call", .full p⟩]) ∧
    (truthyOpt (resolveLive st p.toUser) = false →
      handleCall st sid p = [⟨sid, "callee_unavailable", .toOnly p.toUser⟩]) := by
  constructor
  · intro ts hts htr
    simp [handleCall, hts, htr]
  · intro hfalse
    cases hts : resolveLive st p.toUser with
    | none => simp [handleCall, hts]
    | some ts =>
      rw [hts] at hfalse
      simp only [truthyOpt] at hfalse
      simp [handleCall, hts, hfalse]

/-- Witness for C4: both arms at concrete registries. -/
theorem call_routing_correct_witness :
    handleCall (register {} "D1" (some "doctor")) "P1"
        ⟨some "doctor", some "patient", some "room1", []⟩ =
      [⟨"D1", "incoming_call", .full ⟨some "doctor", some "patient", some "room1", []⟩⟩] ∧
    handleCall {} "P1" ⟨some "doctor", some "patient", some "room1", []⟩ =
      [⟨"P1", "callee_unavailable", .toOnly (some "doctor")⟩] :=
  ⟨(call_routing_correct (register {} "D1" (some "doctor")) "P1"
      ⟨some "doctor", some "patient", some "room1", []⟩).1 "D1" (by decide) (by decide),
   (call_routing_correct {} "P1" ⟨some "doctor", some "patient", some "room1", []⟩).2
      (by decide)⟩

/-! ### C5: register is last-write-wins -/

/-- The whole sequence of `register` events for one user, applied in
order; each element is the registering socket's id. -/
def applyRegisterSeq (st : ServerState) (sids : List String) (u : String) : ServerState :=
  sids.foldl (fun s i => register s i (some u)) st

/-- One registration resolves immediately to the registering socket. -/
theorem resolveLive_register_self (st : ServerState) (sid u : String)
    (hu : truthyStr u = true) :
    resolveLive (register st sid (some u)) (some u) = some sid := by
  simp [register, truthyOpt, hu, resolveLive, keyOf, lookupKV_setKV_self]

/-- C5: after any sequence of `register` calls for the same (truthy)
`userId`, the registry resolves that user to the socket of the most
recent call — last write wins, and the single `socketId` field means at
most one live connection per user at any instant. -/
theorem register_last_write_wins (st : ServerState) (u : String) (hu : truthyStr u = true)
    (sids : List String) (sid : String) :
    resolveLive (applyRegisterSeq st (sids ++ [sid]) u) (some u) = some sid := by
  rw [applyRegisterSeq, List.foldl_append]
  exact resolveLive_register_self _ sid u hu

/-- Witness for C5 at a three-registration sequence. -/
theorem register_last_write_wins_witness :
    resolveLive (applyRegisterSeq {} (["S1", "S2"] ++ ["S3"]) "A") (some "A") = some "S3" :=
  register_last_write_wins {} "A" (by decide) ["S1", "S2"] "S3"

/-! ### C6: accept/reject/end forward or drop silently -/

/-- C6: `accept_call`, `reject_call` and `end_call` forward the payload
(as `call_accepted`, `call_rejected`, `end_call`) to the resolved live
connection when there is one, and emit nothing at all — no
unavailability notice — when there is none. -/
theorem lifecycle_forward_or_silent_drop (st : ServerState) (p : Payload) :
    (∀ ts, resolveLive st p.toUser = some ts → truthyStr ts = true →
      handleAccept st p = [⟨ts, "call_accepted", .full p⟩] ∧
      handleReject st p = [⟨ts, "call_rejected", .full p⟩] ∧
      handleEnd st p = [⟨ts, "end_call", .full p⟩]) ∧
    (truthyOpt (resolveLive st p.toUser) = false →
      handleAccept st p = [] ∧ handleReject st p = [] ∧ handleEnd st p = []) := by
  constructor
  · intro ts hts htr
    refine ⟨?_, ?_, ?_⟩ <;> simp [handleAccept, handleReject, handleEnd, forwardOnly, hts, htr]
  · intro hfalse
    cases hts : resolveLive st p.toUser with
    | none =>
      refine ⟨?_, ?_, ?_⟩ <;> simp [handleAccept, handleReject, handleEnd, forwardOnly, hts]
    | some ts =>
      rw [hts] at hfalse
      simp only [truthyOpt] at hfalse
      refine ⟨?_, ?_, ?_⟩ <;>
        simp [handleAccept, handleReject, handleEnd, forwardOnly, hts, hfalse]

/-- Witness for C6: both arms at concrete registries. -/
theorem lifecycle_forward_or_silent_drop_witness :
    handleEnd (register {} "P2" (some "patient")) ⟨some "patient", some "doctor", none, []⟩ =
      [⟨"P2", "end_call", .full ⟨some "patient", some "doctor", none, []⟩⟩] ∧
    handleAccept {} ⟨some "patient", some "doctor", none, []⟩ = [] :=
  ⟨((lifecycle_forward_or_silent_drop (register {} "P2" (some "patient"))
      ⟨some "patient", some "doctor", none, []⟩).1 "P2" (by decide) (by decide)).2.2,
   ((lifecycle_forward_or_silent_drop {} ⟨some "patient", some "doctor", none, []⟩).2
      (by decide)).1⟩

/-! ### C7: disconnect leaves notification addresses intact -/

/-- Disconnect never touches any `pushToken`: resolution of the
notification address is unchanged for every user, in every state. -/
theorem resolvePushToken_disconnect (st : ServerState) (sid : String) (toId : Option String) :
    resolvePushToken (disconnect st sid) toId = resolvePushToken st toId := by
  unfold disconnect
  cases hm : lookupKV st.sockUser sid with
  | none => rfl
  | some u =>
    by_cases hu : truthyStr u = true
    · simp only [hu, if_true]
      cases hr : lookupKV st.clients u with
      | none => rfl
      | some r =>
        unfold resolvePushToken
        by_cases hv : keyOf toId = u
        · rw [hv, lookupKV_setKV_self, hr]
          rfl
        · exact congrArg (fun o => o.bind ClientRecord.pushToken)
            (lookupKV_setKV_ne st.clients u (keyOf toId) _ hv)
    · rw [Bool.not_eq_true] at hu
      simp [hu]

/-- `sendPush` reads only `clients[to]?.pushToken`, so a disconnect in
between changes nothing about it. -/
theorem sendPush_disconnect (st : ServerState) (sid : String)
    (toId fromId channel : Option String) (o : PushOutcome) :
    sendPush (disconnect st sid) toId fromId channel o = sendPush st toId fromId channel o := by
  unfold sendPush
  rw [resolvePushToken_disconnect]

/-- C7: disconnecting a socket registered to user `u` clears `u`'s
live-connection field and nothing else: every user's push token
resolves as before, every other user's record is untouched, and any
subsequent `sendPush` behaves exactly as before the disconnect. -/
theorem disconnect_frame_effect (st : ServerState) (sid u : String) (r : ClientRecord)
    (hmap : lookupKV st.sockUser sid = some u) (hu : truthyStr u = true)
    (hr : lookupKV st.clients u = some r) :
    resolveLive (disconnect st sid) (some u) = none ∧
    (∀ toId, resolvePushToken (disconnect st sid) toId = resolvePushToken st toId) ∧
    (∀ v, v ≠ u → lookupKV (disconnect st sid).clients v = lookupKV st.clients v) ∧
    (∀ toId fromId channel o,
      sendPush (disconnect st sid) toId fromId channel o =
        sendPush st toId fromId channel o) := by
  have hd : disconnect st sid =
      { st with clients := setKV st.clients u { r with socketId := none } } := by
    simp [disconnect, hmap, hu, hr]
  refine ⟨?_, fun toId => resolvePushToken_disconnect st sid toId, ?_,
    fun a b c d => sendPush_disconnect st sid a b c d⟩
  · rw [hd]
    simp [resolveLive, keyOf, lookupKV_setKV_self]
  · intro v hv
    rw [hd]
    exact lookupKV_setKV_ne _ _ _ _ hv

/-- Witness for C7: user A registers on S1 and registers a push token;
S1 disconnects; A's socket is cleared but `sendPush` to A still
succeeds. -/
theorem disconnect_frame_effect_witness :
    resolveLive (disconnect (⟨[("A", ⟨some "S1", some "tok"⟩)], [("S1", "A")]⟩ : ServerState)
        "S1") (some "A") = none ∧
    sendPush (disconnect (⟨[("A", ⟨some "S1", some "tok"⟩)], [("S1", "A")]⟩ : ServerState)
        "S1") (some "A") none none (.response true) =
      sendPush (⟨[("A", ⟨some "S1", some "tok"⟩)], [("S1", "A")]⟩ : ServerState)
        (some "A") none none (.response true) :=
  ⟨(disconnect_frame_effect ⟨[("A", ⟨some "S1", some "tok"⟩)], [("S1", "A")]⟩ "S1" "A"
      ⟨some "S1", some "tok"⟩ (by decide) (by decide) (by decide)).1,
   (disconnect_frame_effect ⟨[("A", ⟨some "S1", some "tok"⟩)], [("S1", "A")]⟩ "S1" "A"
      ⟨some "S1", some "tok"⟩ (by decide) (by decide) (by decide)).2.2.2
      (some "A") none none (.response true)⟩

/-! ### C9: call with an absent or unresolvable `to` -/

/-- C9: whenever `clients[to]?.socketId` is not truthy — `to` absent
from the payload included, in which case the lookup key is the coerced
string "undefined" — the `call` handler emits exactly one
`callee_unavailable` to the originator, echoing the payload's `to`
value as it was (also when that value is `undefined`), and never throws
or drops the event. -/
theorem call_unresolved_to_unavailable (st : ServerState) (sid : String) (p : Payload)
    (h : truthyOpt (resolveLive st p.toUser) = false) :
    handleCall st sid p = [⟨sid, "callee_unavailable", .toOnly p.toUser⟩] := by
  cases hts : resolveLive st p.toUser with
  | none => simp [handleCall, hts]
  | some ts =>
    rw [hts] at h
    simp only [truthyOpt] at h
    simp [handleCall, hts, h]

/-- Witness for C9 at a payload with no `to` field at all. -/
theorem call_unresolved_to_unavailable_witness :
    handleCall {} "S1" ⟨none, some "patient", some "room1", []⟩ =
      [⟨"S1", "callee_unavailable", .toOnly none⟩] :=
  call_unresolved_to_unavailable {} "S1" ⟨none, some "patient", some "room1", []⟩ (by decide)

/-! ### C10: sendPush depends only on the target's push token -/

/-- C10: the whole behaviour of `POST /sendPush` (response and the
alert submitted) is a function of `clients[to]?.pushToken` and the
collaborator's outcome alone — live-connection state is never read —
and a user who only ever issued `register_push` (never `register`)
receives a successful push. -/
theorem sendPush_depends_only_on_pushToken (st1 st2 st : ServerState)
    (toId fromId channel : Option String) (o : PushOutcome) (u tok : String) :
    (resolvePushToken st1 toId = resolvePushToken st2 toId →
      sendPush st1 toId fromId channel o = sendPush st2 toId fromId channel o) ∧
    (truthyStr u = true → truthyStr tok = true →
      (sendPush (registerPush st (some u) (some tok)) (some u) fromId channel
        (.response true)).1 = ⟨200, .okTrue⟩) := by
  constructor
  · intro h
    unfold sendPush
    rw [h]
  · intro hu htok
    have hres : resolvePushToken (registerPush st (some u) (some tok)) (some u) = some tok := by
      simp [registerPush, truthyOpt, hu, htok, resolvePushToken, keyOf, lookupKV_setKV_self]
    simp [sendPush, hres, htok]

/-- Witness for C10: two registries agreeing on A's push token but
disagreeing on A's live connection behave identically, and a
`register_push`-only user gets a 200. -/
theorem sendPush_depends_only_on_pushToken_witness :
    sendPush (⟨[("A", ⟨some "S9", some "tok"⟩)], []⟩ : ServerState) (some "A") none none
        (.response true) =
      sendPush (⟨[("A", ⟨none, some "tok"⟩)], []⟩ : ServerState) (some "A") none none
        (.response true) ∧
    (sendPush (registerPush {} (some "A") (some "tok")) (some "A") none none
        (.response true)).1 = ⟨200, .okTrue⟩ :=
  ⟨(sendPush_depends_only_on_pushToken ⟨[("A", ⟨some "S9", some "tok"⟩)], []⟩
      ⟨[("A", ⟨none, some "tok"⟩)], []⟩ {} (some "A") none none (.response true) "A" "tok").1
      (by decide),
   (sendPush_depends_only_on_pushToken ⟨[("A", ⟨some "S9", some "tok"⟩)], []⟩
      ⟨[("A", ⟨none, some "tok"⟩)], []⟩ {} (some "A") none none (.response true) "A" "tok").2
      (by decide) (by decide)⟩

/-! ### C8: the /rtcToken contract -/

/-- C8: `/rtcToken` returns 400 `channelName and uid required` when
either parameter is missing (or empty); with both present, 400
`uid must be numeric` when `Number(uid)` is not finite; on a finite
uid it invokes the signing primitive with the channel name, the
numeric uid and an expiry instant equal to the current time plus the
configured TTL — 3600 seconds when `TOKEN_EXPIRE_S` is unset — and
returns 200 with the token, uid and channel name, or 500
`token_generation_failed` when signing throws. -/
theorem rtcToken_contract (ch u envTTL : Option String) (now : Int)
    (sign : SignCall → Option String) :
    ((truthyOpt ch && truthyOpt u) = false →
      (rtcToken ch u envTTL now sign).1 = ⟨400, .errorMsg "channelName and uid required"⟩) ∧
    (∀ c uu, ch = some c → u = some uu → truthyStr c = true → truthyStr uu = true →
      ((jsNumber uu).isFinite = false →
        (rtcToken ch u envTTL now sign).1 = ⟨400, .errorMsg "uid must be numeric"⟩) ∧
      (∀ q : ℚ, jsNumber uu = .finite q →
        (rtcToken ch u envTTL now sign).2 =
          some ⟨c, q, (parseIntDec (envOr envTTL "3600")).map (fun e => now + e)⟩ ∧
        (envTTL = none →
          (rtcToken ch u envTTL now sign).2 = some ⟨c, q, some (now + 3600)⟩) ∧
        (∀ tok, sign ⟨c, q, (parseIntDec (envOr envTTL "3600")).map (fun e => now + e)⟩ =
            some tok →
          (rtcToken ch u envTTL now sign).1 = ⟨200, .tokenResp tok q c⟩) ∧
        (sign ⟨c, q, (parseIntDec (envOr envTTL "3600")).map (fun e => now + e)⟩ = none →
          (rtcToken ch u envTTL now sign).1 =
            ⟨500, .errorMsg "token_generation_failed"⟩))) := by
  constructor
  · intro h
    have hcond : (!truthyOpt ch || !truthyOpt u) = true := by
      cases hc : truthyOpt ch <;> cases hcu : truthyOpt u <;> simp_all
    simp [rtcToken, hcond]
  · rintro c uu rfl rfl hc hu
    have hcond : (!truthyOpt (some c) || !truthyOpt (some uu)) = false := by
      simp [truthyOpt, hc, hu]
    constructor
    · intro hfin
      cases hj : jsNumber uu with
      | nan => simp [rtcToken, hcond, hj]
      | inf n => simp [rtcToken, hcond, hj]
      | finite q => rw [hj] at hfin; simp [JSNum.isFinite] at hfin
    · intro q hq
      have henv : envTTL = none →
          (parseIntDec (envOr envTTL "3600")).map (fun e => now + e) = some (now + 3600) := by
        intro he
        subst he
        have h36 : parseIntDec (envOr none "3600") = some 3600 := by decide
        rw [h36]
        rfl
      have hmain : (rtcToken (some c) (some uu) envTTL now sign).2 =
          some ⟨c, q, (parseIntDec (envOr envTTL "3600")).map (fun e => now + e)⟩ := by
        cases hs : sign ⟨c, q, (parseIntDec (envOr envTTL "3600")).map (fun e => now + e)⟩ <;>
          simp [rtcToken, hcond, hq, hs]
      refine ⟨hmain, ?_, ?_, ?_⟩
      · intro he
        rw [hmain, henv he]
      · intro tok hs
        simp [rtcToken, hcond, hq, hs]
      · intro hs
        simp [rtcToken, hcond, hq, hs]

/-- Witness for C8: a valid request with the TTL unconfigured, at
`now = 100`, against a signing primitive that returns "TOK". -/
theorem rtcToken_contract_witness :
    (rtcToken (some "room1") (some "42") none 100 (fun _ => some "TOK")).2 =
      some ⟨"room1", mkRat 42 1, some (100 + 3600)⟩ ∧
    (rtcToken (some "room1") (some "42") none 100 (fun _ => some "TOK")).1 =
      ⟨200, .tokenResp "TOK" (mkRat 42 1) "room1"⟩ :=
  ⟨(((rtcToken_contract (some "room1") (some "42") none 100 (fun _ => some "TOK")).2
      "room1" "42" rfl rfl (by decide) (by decide)).2 (mkRat 42 1) (by decide)).2.1 rfl,
   (((rtcToken_contract (some "room1") (some "42") none 100 (fun _ => some "TOK")).2
      "room1" "42" rfl rfl (by decide) (by decide)).2 (mkRat 42 1) (by decide)).2.2.1
      "TOK" rfl⟩
